import Mathlib

/-!
Verification of the HCE Incident Analysis System (src/app/app.ts).

The development shallowly embeds the data-bearing logic of the Angular
component `App`: the `TreeNodeData` model, the fixture table and lookup in
`fakeApiCall`, the procedural generator `generateGenericData`, and the
state-machine behaviour of `generateDiagram` / `printDiagram`.  Browser
effects (alerts, DOM flags, blob URLs, the print window) are represented by
explicit result fields; the asynchronous delay around `fakeApiCall` carries
no data and is dropped.  JavaScript string primitives used by the source
(`toLowerCase`, `includes`, `trim`, template interpolation of a number) are
embedded as executable functions on `String` / `List Char`.
-/

namespace HCE

/-- The `TreeNodeData` interface: `key: number`, `name: string`,
`parent?: number`. -/
structure TreeNodeData where
  key : Int
  name : String
  parent : Option Int := none
deriving Repr, DecidableEq

/-- Embeds JavaScript `String.prototype.includes` on char lists: does `pat`
occur as a contiguous substring? -/
def charListIncludes (pat : List Char) : List Char → Bool
  | [] => List.isPrefixOf pat []
  | c :: cs => List.isPrefixOf pat (c :: cs) || charListIncludes pat cs

/-- Embeds `s.includes(pat)` from JavaScript. -/
def strIncludes (s pat : String) : Bool :=
  charListIncludes pat.data s.data

/-- Embeds `s.toLowerCase()` from JavaScript (ASCII case folding). -/
def strToLower (s : String) : String :=
  ⟨s.data.map Char.toLower⟩

/-- Embeds `s.trim()` from JavaScript: strip whitespace from both ends. -/
def strTrim (s : String) : String :=
  ⟨((s.data.dropWhile Char.isWhitespace).reverse.dropWhile Char.isWhitespace).reverse⟩

/-- The `causes` label pool of `generateGenericData`. -/
def causes : List String :=
  ["Human Factor", "Equipment Issue", "Environmental Factor", "Process Failure"]

/-- The `effects` label pool of `generateGenericData`. -/
def effects : List String :=
  ["Injury", "Property Damage", "Work Disruption", "Regulatory Issue"]

/-- Nodes pushed by one iteration of the cause loop of `generateGenericData`:
the primary cause, plus `Sub-cause {i+1}.1` when `level >= 2 && i < 2`, plus
`Sub-cause {i+1}.2` when additionally `level >= 3`.  `nodeId` is the value of
the mutable counter at the start of the iteration. -/
def causeNodes (level : Int) (nodeId : Int) (i : Nat) : List TreeNodeData :=
  ⟨nodeId, "Cause: " ++ causes.getD i "", some 1⟩ ::
    (if level ≥ 2 ∧ i < 2 then
      ⟨nodeId + 100, "Sub-cause " ++ toString (i + 1) ++ ".1", some nodeId⟩ ::
        (if level ≥ 3 then
          [⟨nodeId + 200, "Sub-cause " ++ toString (i + 1) ++ ".2", some nodeId⟩]
        else [])
    else [])

/-- Nodes pushed by one iteration of the effect loop of `generateGenericData`:
the primary effect, plus `Secondary Effect {i+1}.1` when `level >= 2 && i < 2`,
plus `Long-term Effect {i+1}.1` when additionally `level >= 3`. -/
def effectNodes (level : Int) (nodeId : Int) (i : Nat) : List TreeNodeData :=
  ⟨nodeId, "Effect: " ++ effects.getD i "", some 1⟩ ::
    (if level ≥ 2 ∧ i < 2 then
      ⟨nodeId + 300, "Secondary Effect " ++ toString (i + 1) ++ ".1", some nodeId⟩ ::
        (if level ≥ 3 then
          [⟨nodeId + 400, "Long-term Effect " ++ toString (i + 1) ++ ".1", some nodeId⟩]
        else [])
    else [])

/-- The constant `numCauses = 2` of `generateGenericData`. -/
def numCauses : Nat := 2

/-- The constant `numEffects = 2` of `generateGenericData`. -/
def numEffects : Nat := 2

/-- Embeds `generateGenericData(incident, level)`: the root `{key: 1, name:
incident}` followed by the cause loop (counter starting at 2, incremented
once per iteration) and the effect loop (counter continuing at
`2 + numCauses`). -/
def generateGenericData (incident : String) (level : Int) : List TreeNodeData :=
  ⟨1, incident, none⟩ ::
    ((List.range numCauses).foldl
        (fun acc i => acc ++ causeNodes level (2 + Int.ofNat i) i) [] ++
      (List.range numEffects).foldl
        (fun acc i => acc ++ effectNodes level (4 + Int.ofNat i) i) [])

/-- The fixture `mockDataMap['fire-1']`. -/
def fire1 : List TreeNodeData :=
  [⟨1, "Fire Incident", none⟩,
   ⟨2, "Cause: Electrical Short", some 1⟩,
   ⟨3, "Effect: Property Damage", some 1⟩]

/-- The fixture `mockDataMap['fire-2']`. -/
def fire2 : List TreeNodeData :=
  [⟨1, "Fire Incident", none⟩,
   ⟨2, "Cause: Electrical Short", some 1⟩,
   ⟨3, "Cause: Human Error", some 1⟩,
   ⟨4, "Old Wiring System", some 2⟩,
   ⟨5, "Lack of Training", some 3⟩,
   ⟨6, "Effect: Property Damage", some 1⟩,
   ⟨7, "Effect: Business Interruption", some 1⟩]

/-- The fixture `mockDataMap['fire-3']`. -/
def fire3 : List TreeNodeData :=
  [⟨1, "Fire Incident", none⟩,
   ⟨2, "Cause: Electrical Short", some 1⟩,
   ⟨3, "Cause: Human Error", some 1⟩,
   ⟨4, "Cause: Poor Maintenance", some 1⟩,
   ⟨5, "Overloaded Circuit", some 2⟩,
   ⟨6, "Faulty Equipment", some 2⟩,
   ⟨7, "Inadequate Training", some 3⟩,
   ⟨8, "Safety Protocol Violation", some 3⟩,
   ⟨9, "Effect: Property Damage", some 1⟩,
   ⟨10, "Effect: Employee Injuries", some 1⟩,
   ⟨11, "Effect: Business Disruption", some 1⟩]

/-- The fixture `mockDataMap['slip-1']`. -/
def slip1 : List TreeNodeData :=
  [⟨1, "Slip Incident", none⟩,
   ⟨2, "Cause: Wet Floor", some 1⟩,
   ⟨3, "Effect: Minor Injury", some 1⟩]

/-- The fixture `mockDataMap['slip-2']`. -/
def slip2 : List TreeNodeData :=
  [⟨1, "Slip Incident", none⟩,
   ⟨2, "Cause: Wet Floor", some 1⟩,
   ⟨3, "Cause: Poor Lighting", some 1⟩,
   ⟨4, "No Warning Signs", some 2⟩,
   ⟨5, "Maintenance Issue", some 3⟩,
   ⟨6, "Effect: Employee Injury", some 1⟩,
   ⟨7, "Effect: Work Disruption", some 1⟩]

/-- The fixture `mockDataMap['slip-3']`. -/
def slip3 : List TreeNodeData :=
  [⟨1, "Slip Incident", none⟩,
   ⟨2, "Cause: Wet Floor", some 1⟩,
   ⟨3, "Cause: Poor Lighting", some 1⟩,
   ⟨4, "Cause: Inadequate Footwear", some 1⟩,
   ⟨5, "No Warning Signs", some 2⟩,
   ⟨6, "Delayed Cleanup", some 2⟩,
   ⟨7, "Burnt-out Bulbs", some 3⟩,
   ⟨8, "Non-slip Soles Worn", some 4⟩,
   ⟨9, "Effect: Employee Injury", some 1⟩,
   ⟨10, "Effect: Lost Time Incident", some 1⟩,
   ⟨11, "Effect: Compensation Claim", some 1⟩]

/-- The `mockDataMap` record of `fakeApiCall`, as a lookup by key. -/
def mockDataMap (key : String) : Option (List TreeNodeData) :=
  if key = "fire-1" then some fire1
  else if key = "fire-2" then some fire2
  else if key = "fire-3" then some fire3
  else if key = "slip-1" then some slip1
  else if key = "slip-2" then some slip2
  else if key = "slip-3" then some slip3
  else none

/-- The `incidentType` classification of `fakeApiCall`:
`incident.toLowerCase().includes('fire') ? 'fire' :
 incident.toLowerCase().includes('slip') ? 'slip' : 'generic'`. -/
def incidentType (incident : String) : String :=
  if strIncludes (strToLower incident) "fire" then "fire"
  else if strIncludes (strToLower incident) "slip" then "slip"
  else "generic"

/-- The lookup key of `fakeApiCall`: `` `${incidentType}-${level}` ``. -/
def mockKey (incident : String) (level : Int) : String :=
  incidentType incident ++ "-" ++ toString level

/-- The data computed by `fakeApiCall(incident, level)` (the value the
returned Observable emits after its delay): the fixture under the lookup
key when present, otherwise `generateGenericData(incident, level)`. -/
def fakeApiCallData (incident : String) (level : Int) : List TreeNodeData :=
  (mockDataMap (mockKey incident level)).getD (generateGenericData incident level)

/-- Helper: the sublist of nodes whose `parent` field is `k`. -/
def childrenOf (l : List TreeNodeData) (k : Int) : List TreeNodeData :=
  l.filter (fun n => n.parent == some k)

/-- Helper: the sublist of nodes with no `parent` field (the roots). -/
def rootsOf (l : List TreeNodeData) : List TreeNodeData :=
  l.filter (fun n => n.parent.isNone)

/-- Helper: every node with a `parent` field points at the `key` of some
node of the same list. -/
def parentsResolve (l : List TreeNodeData) : Bool :=
  l.all (fun n =>
    match n.parent with
    | none => true
    | some p => l.any (fun m => m.key == p))

/-- Modelled from the spec (section 4.1, step 1): classification of the
incident text by case-insensitive substring match, written from the spec
words for comparison against the source's `incidentType`. -/
def specCategory (incident : String) : String :=
  if strIncludes (strToLower incident) "fire" then "fire"
  else if strIncludes (strToLower incident) "slip" then "slip"
  else "generic"

/-- Modelled from the spec (section 4.1, step 2): the lookup key
`"<category>-<level>"`. -/
def specLookupKey (incident : String) (level : Int) : String :=
  specCategory incident ++ "-" ++ toString level

/-- The component state touched by `generateDiagram` / `printDiagram`:
the `incident` and `level` fields, the `isLoading` and `diagramInitialized`
flags, the visibility of the chart section, the enabled state of the export
button, and the diagram's data model.  `level = none` stands for both the
initial `null` and a `NaN` from `parseInt`. -/
structure AppState where
  incident : String
  level : Option Int
  isLoading : Bool
  diagramInitialized : Bool
  chartVisible : Bool
  exportEnabled : Bool
  diagramModel : Option (List TreeNodeData)
deriving Repr, DecidableEq

/-- Outcome of awaiting the provider call inside the `try` of
`generateDiagram`: the emitted data, or a rejection caught by the
`catch` branch. -/
inductive FetchResult where
  | ok (data : List TreeNodeData)
  | error
deriving Repr, DecidableEq

/-- Observable outcome of one `generateDiagram` run: `invalidInput` is the
early return showing the alert `Please fill in both Incident and Level`
(the provider is never consulted), `failure` is the catch branch showing
`Failed to load diagram data`, `success` is the normal path. -/
inductive GenOutcome where
  | invalidInput
  | success
  | failure
deriving Repr, DecidableEq

/-- Embeds `generateDiagram()`: validate, set the loading flags, hide the
chart and disable export, then either install the fetched model (success)
or fall into the catch branch (failure); the `finally` clears `isLoading`
on both paths. -/
def generateDiagram (s : AppState) (api : FetchResult) : AppState × GenOutcome :=
  if s.incident = "" ∨ s.level = none then (s, GenOutcome.invalidInput)
  else
    let s1 : AppState :=
      { s with isLoading := true, chartVisible := false, exportEnabled := false }
    match api with
    | FetchResult.ok data =>
        ({ s1 with diagramModel := some data, diagramInitialized := true,
                   chartVisible := true, exportEnabled := true, isLoading := false },
          GenOutcome.success)
    | FetchResult.error =>
        ({ s1 with isLoading := false }, GenOutcome.failure)

/-- Embeds the submit handler: `this.incident = incidentInput.value.trim();
this.level = parseInt(levelInput.value); await this.generateDiagram()`.
`parsedLevel = none` models `parseInt` returning `NaN`. -/
def submitForm (s : AppState) (rawIncident : String) (parsedLevel : Option Int)
    (api : FetchResult) : AppState × GenOutcome :=
  generateDiagram { s with incident := strTrim rawIncident, level := parsedLevel } api

/-- Observable effects of one `printDiagram()` call: `rejectedInit` is the
alert `Please generate a diagram first`, `rejectedSvg` the alert `Failed to
generate diagram SVG.`; `blobAllocated` records that a blob URL was created,
`windowOpened` that `window.open` yielded a window. -/
structure PrintResult where
  rejectedInit : Bool
  rejectedSvg : Bool
  blobAllocated : Bool
  windowOpened : Bool
deriving Repr, DecidableEq

/-- Embeds `printDiagram()`: reject when no diagram was ever generated,
then reject when `makeSvg` returns nothing, else serialize, allocate the
blob URL and open the print window (which may fail to open).  The source
never writes any component state here. -/
def printDiagram (s : AppState) (svgResult : Option String)
    (windowAvailable : Bool) : PrintResult :=
  if s.diagramInitialized = false then ⟨true, false, false, false⟩
  else
    match svgResult with
    | none => ⟨false, true, false, false⟩
    | some _ => ⟨false, false, true, windowAvailable⟩

/-- A concrete component state used to instantiate theorems with
hypotheses. -/
def sampleState : AppState :=
  ⟨"Gas Leak", some 2, false, true, true, true, some fire1⟩

/-- Unfolds the two loops of `generateGenericData` (bounds `numCauses =
numEffects = 2`, counter values 2, 3, 4, 5). -/
theorem generateGenericData_eq (incident : String) (level : Int) :
    generateGenericData incident level =
      ⟨1, incident, none⟩ ::
        ((causeNodes level 2 0 ++ causeNodes level 3 1) ++
          (effectNodes level 4 0 ++ effectNodes level 5 1)) := rfl

/-- C2: the Generic Data Synthesizer returns 5 nodes at level 1, 9 at level
2, 13 at level 3; at each of these levels the unique root is
`{key: 1, name: incident}` and the children of the root are exactly two
cause nodes and two effect nodes labelled with the first two entries of the
`causes` and `effects` pools. -/
theorem generic_counts_and_root (incident : String) :
    (generateGenericData incident 1).length = 5 ∧
    (generateGenericData incident 2).length = 9 ∧
    (generateGenericData incident 3).length = 13 ∧
    causes.take 2 = ["Human Factor", "Equipment Issue"] ∧
    effects.take 2 = ["Injury", "Property Damage"] ∧
    rootsOf (generateGenericData incident 1) = [⟨1, incident, none⟩] ∧
    rootsOf (generateGenericData incident 2) = [⟨1, incident, none⟩] ∧
    rootsOf (generateGenericData incident 3) = [⟨1, incident, none⟩] ∧
    childrenOf (generateGenericData incident 1) 1 =
      [⟨2, "Cause: Human Factor", some 1⟩, ⟨3, "Cause: Equipment Issue", some 1⟩,
       ⟨4, "Effect: Injury", some 1⟩, ⟨5, "Effect: Property Damage", some 1⟩] ∧
    childrenOf (generateGenericData incident 2) 1 =
      [⟨2, "Cause: Human Factor", some 1⟩, ⟨3, "Cause: Equipment Issue", some 1⟩,
       ⟨4, "Effect: Injury", some 1⟩, ⟨5, "Effect: Property Damage", some 1⟩] ∧
    childrenOf (generateGenericData incident 3) 1 =
      [⟨2, "Cause: Human Factor", some 1⟩, ⟨3, "Cause: Equipment Issue", some 1⟩,
       ⟨4, "Effect: Injury", some 1⟩, ⟨5, "Effect: Property Damage", some 1⟩] :=
  ⟨rfl, rfl, rfl, rfl, rfl, rfl, rfl, rfl, rfl, rfl, rfl⟩

/-- Shape of the synthesizer output when `level < 2`: root plus two causes
and two effects. -/
theorem gen_level_low (incident : String) (level : Int) (h2 : ¬ 2 ≤ level) :
    generateGenericData incident level =
      [⟨1, incident, none⟩,
       ⟨2, "Cause: Human Factor", some 1⟩, ⟨3, "Cause: Equipment Issue", some 1⟩,
       ⟨4, "Effect: Injury", some 1⟩, ⟨5, "Effect: Property Damage", some 1⟩] := by
  rw [generateGenericData_eq]
  simp [causeNodes, effectNodes, h2, causes, effects]

/-- Shape of the synthesizer output when `2 <= level < 3`: one sub-node
under each cause and each effect. -/
theorem gen_level_mid (incident : String) (level : Int) (h2 : 2 ≤ level) (h3 : ¬ 3 ≤ level) :
    generateGenericData incident level =
      [⟨1, incident, none⟩,
       ⟨2, "Cause: Human Factor", some 1⟩, ⟨102, "Sub-cause 1.1", some 2⟩,
       ⟨3, "Cause: Equipment Issue", some 1⟩, ⟨103, "Sub-cause 2.1", some 3⟩,
       ⟨4, "Effect: Injury", some 1⟩, ⟨304, "Secondary Effect 1.1", some 4⟩,
       ⟨5, "Effect: Property Damage", some 1⟩, ⟨305, "Secondary Effect 2.1", some 5⟩] := by
  rw [generateGenericData_eq]
  simp [causeNodes, effectNodes, h2, h3, causes, effects]
  decide

/-- Shape of the synthesizer output when `level >= 3`: two sub-nodes under
each cause and each effect, all four attached to the primary nodes. -/
theorem gen_level_high (incident : String) (level : Int) (h3 : 3 ≤ level) :
    generateGenericData incident level =
      [⟨1, incident, none⟩,
       ⟨2, "Cause: Human Factor", some 1⟩, ⟨102, "Sub-cause 1.1", some 2⟩,
       ⟨202, "Sub-cause 1.2", some 2⟩,
       ⟨3, "Cause: Equipment Issue", some 1⟩, ⟨103, "Sub-cause 2.1", some 3⟩,
       ⟨203, "Sub-cause 2.2", some 3⟩,
       ⟨4, "Effect: Injury", some 1⟩, ⟨304, "Secondary Effect 1.1", some 4⟩,
       ⟨404, "Long-term Effect 1.1", some 4⟩,
       ⟨5, "Effect: Property Damage", some 1⟩, ⟨305, "Secondary Effect 2.1", some 5⟩,
       ⟨405, "Long-term Effect 2.1", some 5⟩] := by
  have h2 : 2 ≤ level := by omega
  rw [generateGenericData_eq]
  simp [causeNodes, effectNodes, h2, h3, causes, effects]
  decide

/-- The accumulator never shrinks across `Nat.toDigitsCore`. -/
theorem toDigitsCore_len_ge (b f : Nat) : ∀ (n : Nat) (l : List Char),
    l.length ≤ (Nat.toDigitsCore b f n l).length := by
  induction f with
  | zero => intro n l; simp [Nat.toDigitsCore]
  | succ f ih =>
    intro n l
    simp only [Nat.toDigitsCore]
    split
    · simp
    · exact le_trans (by simp) (ih (n / b) (Nat.digitChar (n % b) :: l))

/-- With fuel left, `Nat.toDigitsCore` emits at least one digit. -/
theorem toDigitsCore_len_succ (b f n : Nat) (l : List Char) (hf : 0 < f) :
    l.length + 1 ≤ (Nat.toDigitsCore b f n l).length := by
  cases f with
  | zero => exact absurd hf (by simp)
  | succ f =>
    simp only [Nat.toDigitsCore]
    split
    · simp
    · exact le_trans (by simp) (toDigitsCore_len_ge b f (n / b) (Nat.digitChar (n % b) :: l))

/-- Decimal representations of numbers of at least two digits have length
at least two. -/
theorem natRepr_len_ge_two (n : Nat) (h : 10 ≤ n) : 2 ≤ (Nat.repr n).length := by
  have hd : ¬ n / 10 = 0 := by
    have : 0 < n / 10 := Nat.div_pos h (by decide)
    omega
  show 2 ≤ (Nat.toDigitsCore 10 (n + 1) n []).length
  cases n with
  | zero => omega
  | succ m =>
    have hstep : Nat.toDigitsCore 10 (m + 1 + 1) (m + 1) [] =
        Nat.toDigitsCore 10 (m + 1) ((m + 1) / 10) [Nat.digitChar ((m + 1) % 10)] := by
      simp only [Nat.toDigitsCore]
      rw [if_neg hd]
    rw [hstep]
    have := toDigitsCore_len_succ 10 (m + 1) ((m + 1) / 10)
      [Nat.digitChar ((m + 1) % 10)] (by omega)
    simpa using this

/-- Decimal representations of single-digit numbers have length one. -/
theorem natRepr_len_small (m : Nat) (hm : m < 10) : (Nat.repr m).length = 1 := by
  interval_cases m <;> decide

/-- The decimal representation determines a number below any single-digit
target. -/
theorem natRepr_inj_small (n m : Nat) (hm : m < 10) (h : Nat.repr n = Nat.repr m) : n = m := by
  by_cases hn : n < 10
  · interval_cases m <;> interval_cases n <;> revert h <;> decide
  · exfalso
    have h2 := natRepr_len_ge_two n (by omega)
    rw [h, natRepr_len_small m hm] at h2
    omega

/-- Length of a string concatenation. -/
theorem strLength_append (a b : String) : (a ++ b).length = a.length + b.length := by
  obtain ⟨ad⟩ := a
  obtain ⟨bd⟩ := b
  show (ad ++ bd).length = ad.length + bd.length
  simp

/-- Decimal representations are never empty. -/
theorem natRepr_len_pos (n : Nat) : 1 ≤ (Nat.repr n).length := by
  show 1 ≤ (Nat.toDigitsCore 10 (n + 1) n []).length
  exact toDigitsCore_len_succ 10 (n + 1) n [] (by omega)

/-- An integer whose decimal string equals that of a single-digit natural
number is that number. -/
theorem intToString_inj_small (v : Int) (m : Nat) (hm : m < 10)
    (h : toString v = Nat.repr m) : v = m := by
  cases v with
  | ofNat k =>
    have hk : toString (Int.ofNat k) = Nat.repr k := rfl
    rw [hk] at h
    have := natRepr_inj_small k m hm h
    simp [this]
  | negSucc k =>
    exfalso
    have hk : toString (Int.negSucc k) = "-" ++ Nat.repr (k + 1) := rfl
    rw [hk] at h
    have hlen := congrArg String.length h
    rw [strLength_append, natRepr_len_small m hm] at hlen
    have h1 := natRepr_len_pos (k + 1)
    have h2 : ("-" : String).length = 1 := by decide
    omega

/-- Appending to a common left part is injective on strings. -/
theorem strAppend_left_cancel {s t u : String} (h : s ++ t = s ++ u) : t = u := by
  obtain ⟨sd⟩ := s
  obtain ⟨td⟩ := t
  obtain ⟨ud⟩ := u
  have hd : sd ++ td = sd ++ ud := congrArg String.data h
  have := List.append_cancel_left hd
  rw [this]

/-- The first character of an append is the first character of a nonempty
left part. -/
theorem append_fixed_head (p s : String) (c : Char) (hp : p.data.head? = some c) :
    (p ++ s).data.head? = some c := by
  obtain ⟨pd⟩ := p
  obtain ⟨sd⟩ := s
  cases pd with
  | nil => simp at hp
  | cons a as => exact hp

/-- Keys starting with `fire-` differ from any string starting with `s`. -/
theorem fire_append_ne (s t : String) (ht : t.data.head? = some 's') :
    "fire-" ++ s ≠ t := by
  intro h
  have h2 := congrArg (fun x => x.data.head?) h
  simp only at h2
  rw [append_fixed_head "fire-" s 'f' rfl, ht] at h2
  exact absurd h2 (by decide)

/-- Keys starting with `slip-` differ from any string starting with `f`. -/
theorem slip_append_ne (s t : String) (ht : t.data.head? = some 'f') :
    "slip-" ++ s ≠ t := by
  intro h
  have h2 := congrArg (fun x => x.data.head?) h
  simp only at h2
  rw [append_fixed_head "slip-" s 's' rfl, ht] at h2
  exact absurd h2 (by decide)

/-- A `fire-` key matches `fire-<j>` only at level `j`. -/
theorem fire_key_level (lvl : Int) (j : Nat) (hj : j < 10)
    (h : "fire-" ++ toString lvl = "fire-" ++ Nat.repr j) : lvl = j := by
  have := strAppend_left_cancel h
  exact intToString_inj_small lvl j hj this

/-- A `slip-` key matches `slip-<j>` only at level `j`. -/
theorem slip_key_level (lvl : Int) (j : Nat) (hj : j < 10)
    (h : "slip-" ++ toString lvl = "slip-" ++ Nat.repr j) : lvl = j := by
  have := strAppend_left_cancel h
  exact intToString_inj_small lvl j hj this

/-- Outside levels 1 to 3 the fixture table has no `fire-` entry. -/
theorem mockDataMap_fire_none (lvl : Int) (h1 : lvl ≠ 1) (h2 : lvl ≠ 2) (h3 : lvl ≠ 3) :
    mockDataMap ("fire-" ++ toString lvl) = none := by
  have c1 : ¬ ("fire-" ++ toString lvl = "fire-1") := by
    intro h
    have := fire_key_level lvl 1 (by omega) (h.trans (by decide))
    omega
  have c2 : ¬ ("fire-" ++ toString lvl = "fire-2") := by
    intro h
    have := fire_key_level lvl 2 (by omega) (h.trans (by decide))
    omega
  have c3 : ¬ ("fire-" ++ toString lvl = "fire-3") := by
    intro h
    have := fire_key_level lvl 3 (by omega) (h.trans (by decide))
    omega
  unfold mockDataMap
  rw [if_neg c1, if_neg c2, if_neg c3,
    if_neg (fire_append_ne (toString lvl) "slip-1" (by decide)),
    if_neg (fire_append_ne (toString lvl) "slip-2" (by decide)),
    if_neg (fire_append_ne (toString lvl) "slip-3" (by decide))]

/-- Outside levels 1 to 3 the fixture table has no `slip-` entry. -/
theorem mockDataMap_slip_none (lvl : Int) (h1 : lvl ≠ 1) (h2 : lvl ≠ 2) (h3 : lvl ≠ 3) :
    mockDataMap ("slip-" ++ toString lvl) = none := by
  have c1 : ¬ ("slip-" ++ toString lvl = "slip-1") := by
    intro h
    have := slip_key_level lvl 1 (by omega) (h.trans (by decide))
    omega
  have c2 : ¬ ("slip-" ++ toString lvl = "slip-2") := by
    intro h
    have := slip_key_level lvl 2 (by omega) (h.trans (by decide))
    omega
  have c3 : ¬ ("slip-" ++ toString lvl = "slip-3") := by
    intro h
    have := slip_key_level lvl 3 (by omega) (h.trans (by decide))
    omega
  unfold mockDataMap
  rw [if_neg (slip_append_ne (toString lvl) "fire-1" (by decide)),
    if_neg (slip_append_ne (toString lvl) "fire-2" (by decide)),
    if_neg (slip_append_ne (toString lvl) "fire-3" (by decide)),
    if_neg c1, if_neg c2, if_neg c3]

/-- Any fixture looked up successfully is one of the six tables. -/
theorem mockDataMap_some_cases (k : String) (d : List TreeNodeData)
    (h : mockDataMap k = some d) :
    d = fire1 ∨ d = fire2 ∨ d = fire3 ∨ d = slip1 ∨ d = slip2 ∨ d = slip3 := by
  unfold mockDataMap at h
  split_ifs at h <;> simp_all

/-- A successful lookup of a `fire-` key is one of the three fire tables. -/
theorem mockDataMap_fire_cases (s : String) (d : List TreeNodeData)
    (h : mockDataMap ("fire-" ++ s) = some d) :
    d = fire1 ∨ d = fire2 ∨ d = fire3 := by
  unfold mockDataMap at h
  split_ifs at h with hc1 hc2 hc3 hc4 hc5 hc6
  · simp_all
  · simp_all
  · simp_all
  · exact absurd hc4 (fire_append_ne s "slip-1" (by decide))
  · exact absurd hc5 (fire_append_ne s "slip-2" (by decide))
  · exact absurd hc6 (fire_append_ne s "slip-3" (by decide))

/-- When the fixture lookup hits, `fakeApiCall` passes the fixture through
unchanged for every incident of the matching category. -/
theorem fakeApiCall_fixture (cat : String) (level : Int) (fix : List TreeNodeData)
    (hmap : mockDataMap (cat ++ "-" ++ toString level) = some fix) :
    ∀ incident, incidentType incident = cat → fakeApiCallData incident level = fix := by
  intro incident hinc
  unfold fakeApiCallData mockKey
  rw [hinc, hmap]
  rfl

/-- C1 (counterexample): at level 3 the node named `Sub-cause 1.2` is not a
child of the node named `Sub-cause 1.1` — its parent field (2, the cause
node) is not the key of any node named `Sub-cause 1.1` (key 102). -/
theorem subcause_two_not_child_of_subcause_one :
    ¬ (∀ n ∈ generateGenericData "Chemical Spill" 3, n.name = "Sub-cause 1.2" →
        ∃ m ∈ generateGenericData "Chemical Spill" 3,
          m.name = "Sub-cause 1.1" ∧ n.parent = some m.key) := by
  decide

/-- C1 (amended): for `level >= 3` the two `Sub-cause {i}.2` nodes are
additional children of the respective cause nodes (parent 2 and 3), i.e.
siblings of the `Sub-cause {i}.1` nodes, and the two `Long-term Effect
{i}.1` nodes are additional children of the respective effect nodes
(parent 4 and 5), siblings of the `Secondary Effect {i}.1` nodes; the
`Sub-cause {i}.1` and `Secondary Effect {i}.1` nodes (keys 102, 103, 304,
305) have no children at all. -/
theorem deeper_nodes_are_siblings (incident : String) (level : Int) (h3 : 3 ≤ level) :
    (⟨202, "Sub-cause 1.2", some 2⟩ : TreeNodeData) ∈ generateGenericData incident level ∧
    (⟨102, "Sub-cause 1.1", some 2⟩ : TreeNodeData) ∈ generateGenericData incident level ∧
    (⟨203, "Sub-cause 2.2", some 3⟩ : TreeNodeData) ∈ generateGenericData incident level ∧
    (⟨103, "Sub-cause 2.1", some 3⟩ : TreeNodeData) ∈ generateGenericData incident level ∧
    (⟨404, "Long-term Effect 1.1", some 4⟩ : TreeNodeData) ∈ generateGenericData incident level ∧
    (⟨304, "Secondary Effect 1.1", some 4⟩ : TreeNodeData) ∈ generateGenericData incident level ∧
    (⟨405, "Long-term Effect 2.1", some 5⟩ : TreeNodeData) ∈ generateGenericData incident level ∧
    (⟨305, "Secondary Effect 2.1", some 5⟩ : TreeNodeData) ∈ generateGenericData incident level ∧
    (∀ n ∈ generateGenericData incident level,
      n.parent ≠ some 102 ∧ n.parent ≠ some 103 ∧ n.parent ≠ some 304 ∧ n.parent ≠ some 305) := by
  rw [gen_level_high incident level h3]
  refine ⟨by simp, by simp, by simp, by simp, by simp, by simp, by simp, by simp, ?_⟩
  intro n hn
  fin_cases hn <;> simp

/-- Instantiation of `deeper_nodes_are_siblings` at a concrete input. -/
theorem deeper_nodes_are_siblings_witness :
    (⟨202, "Sub-cause 1.2", some 2⟩ : TreeNodeData) ∈ generateGenericData "Crane Failure" 3 ∧
    (⟨102, "Sub-cause 1.1", some 2⟩ : TreeNodeData) ∈ generateGenericData "Crane Failure" 3 ∧
    (⟨203, "Sub-cause 2.2", some 3⟩ : TreeNodeData) ∈ generateGenericData "Crane Failure" 3 ∧
    (⟨103, "Sub-cause 2.1", some 3⟩ : TreeNodeData) ∈ generateGenericData "Crane Failure" 3 ∧
    (⟨404, "Long-term Effect 1.1", some 4⟩ : TreeNodeData) ∈ generateGenericData "Crane Failure" 3 ∧
    (⟨304, "Secondary Effect 1.1", some 4⟩ : TreeNodeData) ∈ generateGenericData "Crane Failure" 3 ∧
    (⟨405, "Long-term Effect 2.1", some 5⟩ : TreeNodeData) ∈ generateGenericData "Crane Failure" 3 ∧
    (⟨305, "Secondary Effect 2.1", some 5⟩ : TreeNodeData) ∈ generateGenericData "Crane Failure" 3 ∧
    (∀ n ∈ generateGenericData "Crane Failure" 3,
      n.parent ≠ some 102 ∧ n.parent ≠ some 103 ∧ n.parent ≠ some 304 ∧ n.parent ≠ some 305) :=
  deeper_nodes_are_siblings "Crane Failure" 3 (by decide)

/-- C4: every list the Mock Data Provider can emit — fixture or synthesized
— has pairwise distinct keys, exactly one node without a parent field, and
every parent field equal to the key of some node of the same list. -/
theorem provider_output_wellformed (incident : String) (level : Int) :
    ((fakeApiCallData incident level).map TreeNodeData.key).Nodup ∧
    (rootsOf (fakeApiCallData incident level)).length = 1 ∧
    parentsResolve (fakeApiCallData incident level) = true := by
  cases h : mockDataMap (mockKey incident level) with
  | some d =>
    rw [show fakeApiCallData incident level = d from by
      unfold fakeApiCallData; rw [h]; rfl]
    rcases mockDataMap_some_cases _ d h with rfl | rfl | rfl | rfl | rfl | rfl <;> decide
  | none =>
    rw [show fakeApiCallData incident level = generateGenericData incident level from by
      unfold fakeApiCallData; rw [h]; rfl]
    rcases le_or_lt 3 level with h3 | h3
    · refine ⟨?_, ?_, ?_⟩
      · have hk : (generateGenericData incident level).map TreeNodeData.key =
            [1, 2, 102, 202, 3, 103, 203, 4, 304, 404, 5, 305, 405] := by
          rw [gen_level_high incident level h3]
          rfl
        rw [hk]
        decide
      · rw [gen_level_high incident level h3]
        rfl
      · rw [gen_level_high incident level h3]
        rfl
    · rcases le_or_lt 2 level with h2 | h2
      · refine ⟨?_, ?_, ?_⟩
        · have hk : (generateGenericData incident level).map TreeNodeData.key =
              [1, 2, 102, 3, 103, 4, 304, 5, 305] := by
            rw [gen_level_mid incident level h2 (by omega)]
            rfl
          rw [hk]
          decide
        · rw [gen_level_mid incident level h2 (by omega)]
          rfl
        · rw [gen_level_mid incident level h2 (by omega)]
          rfl
      · refine ⟨?_, ?_, ?_⟩
        · have hk : (generateGenericData incident level).map TreeNodeData.key =
              [1, 2, 3, 4, 5] := by
            rw [gen_level_low incident level (by omega)]
            rfl
          rw [hk]
          decide
        · rw [gen_level_low incident level (by omega)]
          rfl
        · rw [gen_level_low incident level (by omega)]
          rfl

/-- Instantiation of `provider_output_wellformed` at a concrete input. -/
theorem provider_output_wellformed_witness :
    ((fakeApiCallData "Scaffolding Collapse" 2).map TreeNodeData.key).Nodup ∧
    (rootsOf (fakeApiCallData "Scaffolding Collapse" 2)).length = 1 ∧
    parentsResolve (fakeApiCallData "Scaffolding Collapse" 2) = true :=
  provider_output_wellformed "Scaffolding Collapse" 2

/-- C5: the synthesizer output at any level at most 0 coincides with level
1, at any level at least 4 with level 3; and for incidents classified fire
or slip at a level outside 1..3, `fakeApiCall` finds no fixture and falls
through to the synthesizer. -/
theorem level_clamping_and_fallthrough (incident : String) (level : Int) :
    (level ≤ 0 → generateGenericData incident level = generateGenericData incident 1) ∧
    (4 ≤ level → generateGenericData incident level = generateGenericData incident 3) ∧
    ((incidentType incident = "fire" ∨ incidentType incident = "slip") →
      level ≠ 1 → level ≠ 2 → level ≠ 3 →
      fakeApiCallData incident level = generateGenericData incident level) := by
  refine ⟨?_, ?_, ?_⟩
  · intro h
    rw [gen_level_low incident level (by omega), gen_level_low incident 1 (by omega)]
  · intro h
    rw [gen_level_high incident level (by omega), gen_level_high incident 3 (by omega)]
  · intro hcat h1 h2 h3
    unfold fakeApiCallData mockKey
    rcases hcat with hc | hc <;> rw [hc]
    · rw [show ("fire" : String) ++ "-" = "fire-" from by decide,
        mockDataMap_fire_none level h1 h2 h3]
      rfl
    · rw [show ("slip" : String) ++ "-" = "slip-" from by decide,
        mockDataMap_slip_none level h1 h2 h3]
      rfl

/-- Instantiation of `level_clamping_and_fallthrough` at concrete inputs:
level -1 behaves as level 1 and a fire incident at level 7 falls through to
the synthesizer. -/
theorem level_clamping_and_fallthrough_witness :
    (generateGenericData "Fire near dock" (-1) = generateGenericData "Fire near dock" 1) ∧
    (fakeApiCallData "Fire near dock" 7 = generateGenericData "Fire near dock" 7) :=
  ⟨(level_clamping_and_fallthrough "Fire near dock" (-1)).1 (by decide),
   (level_clamping_and_fallthrough "Fire near dock" 7).2.2 (Or.inl (by decide))
     (by decide) (by decide) (by decide)⟩

/-- Distinguishes synthesizer output from any list of fixture size: the
synthesizer always emits 5, 9 or 13 nodes. -/
theorem gen_ne_of_len (incident : String) (level : Int) (fix : List TreeNodeData)
    (hfix : fix.length = 3 ∨ fix.length = 7 ∨ fix.length = 11) :
    generateGenericData incident level ≠ fix := by
  intro h
  have hl := congrArg List.length h
  rcases le_or_lt 3 level with h3 | h3
  · rw [gen_level_high incident level h3] at hl
    simp at hl
    rcases hfix with hf | hf | hf <;> omega
  · rcases le_or_lt 2 level with h2 | h2
    · rw [gen_level_mid incident level h2 (by omega)] at hl
      simp at hl
      rcases hfix with hf | hf | hf <;> omega
    · rw [gen_level_low incident level (by omega)] at hl
      simp at hl
      rcases hfix with hf | hf | hf <;> omega

/-- C3: for each category in fire, slip and each level in 1..3 the fixture
table holds an entry under `<category>-<level>`; `fakeApiCall` returns that
entry verbatim for every incident of the category, and the entry has 3, 7
or 11 nodes, exactly one root, and only resolvable parent references. -/
theorem fixtures_returned_verbatim (cat : String) (level : Int)
    (hcat : cat = "fire" ∨ cat = "slip") (hlvl : level = 1 ∨ level = 2 ∨ level = 3) :
    ∃ fix, mockDataMap (cat ++ "-" ++ toString level) = some fix ∧
      (∀ incident, incidentType incident = cat → fakeApiCallData incident level = fix) ∧
      fix.length = (if level = 1 then 3 else if level = 2 then 7 else 11) ∧
      (rootsOf fix).length = 1 ∧
      parentsResolve fix = true := by
  rcases hcat with rfl | rfl <;> rcases hlvl with rfl | rfl | rfl
  · exact ⟨fire1, by decide, fakeApiCall_fixture "fire" 1 fire1 (by decide),
      by decide, by decide, by decide⟩
  · exact ⟨fire2, by decide, fakeApiCall_fixture "fire" 2 fire2 (by decide),
      by decide, by decide, by decide⟩
  · exact ⟨fire3, by decide, fakeApiCall_fixture "fire" 3 fire3 (by decide),
      by decide, by decide, by decide⟩
  · exact ⟨slip1, by decide, fakeApiCall_fixture "slip" 1 slip1 (by decide),
      by decide, by decide, by decide⟩
  · exact ⟨slip2, by decide, fakeApiCall_fixture "slip" 2 slip2 (by decide),
      by decide, by decide, by decide⟩
  · exact ⟨slip3, by decide, fakeApiCall_fixture "slip" 3 slip3 (by decide),
      by decide, by decide, by decide⟩

/-- Instantiation of `fixtures_returned_verbatim` end to end: the incident
`Fire in warehouse` at level 2 yields the `fire-2` fixture verbatim. -/
theorem fixtures_returned_verbatim_witness :
    fakeApiCallData "Fire in warehouse" 2 = fire2 ∧
    fire2.length = 7 ∧ (rootsOf fire2).length = 1 ∧ parentsResolve fire2 = true := by
  obtain ⟨fix, hmap, hall, hlen, hroot, hres⟩ :=
    fixtures_returned_verbatim "fire" 2 (Or.inl rfl) (Or.inr (Or.inl rfl))
  have hmap2 : mockDataMap ("fire" ++ "-" ++ toString (2 : Int)) = some fire2 := by decide
  rw [hmap2] at hmap
  have hfix : fire2 = fix := Option.some.inj hmap
  rw [← hfix] at hall
  exact ⟨hall "Fire in warehouse" (by decide), by decide, by decide, by decide⟩

/-- C6: the classification of `fakeApiCall` agrees with the spec's
case-insensitive substring rule (fire before slip before generic) and the
lookup key is `<category>-<level>`. -/
theorem classification_and_key (incident : String) (level : Int) :
    incidentType incident = specCategory incident ∧
    mockKey incident level = specLookupKey incident level ∧
    (strIncludes (strToLower incident) "fire" = true → incidentType incident = "fire") ∧
    (strIncludes (strToLower incident) "fire" = false →
      strIncludes (strToLower incident) "slip" = true → incidentType incident = "slip") ∧
    (strIncludes (strToLower incident) "fire" = false →
      strIncludes (strToLower incident) "slip" = false → incidentType incident = "generic") := by
  refine ⟨rfl, rfl, ?_, ?_, ?_⟩
  · intro h
    simp [incidentType, h]
  · intro h1 h2
    simp [incidentType, h1, h2]
  · intro h1 h2
    simp [incidentType, h1, h2]

/-- Instantiation of `classification_and_key` on the three categories. -/
theorem classification_and_key_witness :
    incidentType "Warehouse FIRE drill" = "fire" ∧
    incidentType "wet slippery stairs" = "slip" ∧
    incidentType "Gas Leak" = "generic" :=
  ⟨(classification_and_key "Warehouse FIRE drill" 1).2.2.1 (by decide),
   (classification_and_key "wet slippery stairs" 1).2.2.2.1 (by decide) (by decide),
   (classification_and_key "Gas Leak" 1).2.2.2.2 (by decide) (by decide)⟩

/-- C7: submitting with an incident that trims to empty, or a level that
did not parse, ends in the `invalidInput` outcome (the blocking alert), is
independent of any provider behaviour (the provider is not consulted), and
leaves the loading flag, diagram model, `diagramInitialized`, chart
visibility and export-enabled state unchanged. -/
theorem invalid_submit_no_call_no_change (s : AppState) (raw : String)
    (parsedLevel : Option Int) (api : FetchResult)
    (h : strTrim raw = "" ∨ parsedLevel = none) :
    (∀ api2, submitForm s raw parsedLevel api2 = submitForm s raw parsedLevel api) ∧
    (submitForm s raw parsedLevel api).2 = GenOutcome.invalidInput ∧
    (submitForm s raw parsedLevel api).1.isLoading = s.isLoading ∧
    (submitForm s raw parsedLevel api).1.diagramModel = s.diagramModel ∧
    (submitForm s raw parsedLevel api).1.diagramInitialized = s.diagramInitialized ∧
    (submitForm s raw parsedLevel api).1.chartVisible = s.chartVisible ∧
    (submitForm s raw parsedLevel api).1.exportEnabled = s.exportEnabled := by
  rcases h with h | h <;> simp [submitForm, generateDiagram, h]

/-- Instantiation of `invalid_submit_no_call_no_change`: whitespace-only
incident text is rejected and the prior diagram state survives. -/
theorem invalid_submit_no_call_no_change_witness :
    (submitForm sampleState "   " none FetchResult.error).2 = GenOutcome.invalidInput ∧
    (submitForm sampleState "   " none FetchResult.error).1.diagramModel =
      sampleState.diagramModel ∧
    (submitForm sampleState "   " none FetchResult.error).1.diagramInitialized =
      sampleState.diagramInitialized :=
  ⟨(invalid_submit_no_call_no_change sampleState "   " none FetchResult.error
      (Or.inl (by decide))).2.1,
   (invalid_submit_no_call_no_change sampleState "   " none FetchResult.error
      (Or.inl (by decide))).2.2.2.1,
   (invalid_submit_no_call_no_change sampleState "   " none FetchResult.error
      (Or.inl (by decide))).2.2.2.2.1⟩

/-- C8: invoking export before any generation ever succeeded is rejected
with the alert and has no effect: no SVG-failure alert, no blob URL, no
print window. -/
theorem export_rejected_before_init (s : AppState) (svgResult : Option String) (w : Bool)
    (h : s.diagramInitialized = false) :
    printDiagram s svgResult w = ⟨true, false, false, false⟩ := by
  simp [printDiagram, h]

/-- Instantiation of `export_rejected_before_init` in the initial state. -/
theorem export_rejected_before_init_witness :
    printDiagram ⟨"", none, false, false, false, false, none⟩ (some "svg") true =
      ⟨true, false, false, false⟩ :=
  export_rejected_before_init ⟨"", none, false, false, false, false, none⟩ (some "svg") true rfl

/-- C9: an incident whose lowercased text contains `fire` is classified
`fire` (the fire test is evaluated first), so no slip fixture is ever
returned for it at any level. -/
theorem fire_precedence_over_slip (incident : String) (level : Int)
    (h : strIncludes (strToLower incident) "fire" = true) :
    incidentType incident = "fire" ∧
    fakeApiCallData incident level ≠ slip1 ∧
    fakeApiCallData incident level ≠ slip2 ∧
    fakeApiCallData incident level ≠ slip3 := by
  have hft : incidentType incident = "fire" := by simp [incidentType, h]
  have hcases : fakeApiCallData incident level = fire1 ∨
      fakeApiCallData incident level = fire2 ∨
      fakeApiCallData incident level = fire3 ∨
      fakeApiCallData incident level = generateGenericData incident level := by
    unfold fakeApiCallData mockKey
    rw [hft, show ("fire" : String) ++ "-" = "fire-" from by decide]
    cases hm : mockDataMap ("fire-" ++ toString level) with
    | some d =>
      rcases mockDataMap_fire_cases (toString level) d hm with rfl | rfl | rfl
      · exact Or.inl rfl
      · exact Or.inr (Or.inl rfl)
      · exact Or.inr (Or.inr (Or.inl rfl))
    | none => exact Or.inr (Or.inr (Or.inr rfl))
  refine ⟨hft, ?_, ?_, ?_⟩ <;>
    rcases hcases with hc | hc | hc | hc <;> rw [hc] <;>
      first
      | decide
      | exact gen_ne_of_len incident level _ (by decide)

/-- Instantiation of `fire_precedence_over_slip` on an incident mentioning
both fire and slip. -/
theorem fire_precedence_over_slip_witness :
    incidentType "Fire after slip" = "fire" ∧
    fakeApiCallData "Fire after slip" 1 ≠ slip1 ∧
    fakeApiCallData "Fire after slip" 1 ≠ slip2 ∧
    fakeApiCallData "Fire after slip" 1 ≠ slip3 :=
  fire_precedence_over_slip "Fire after slip" 1 (by decide)

/-- C10: once `diagramInitialized` is true it stays true across any further
`generateDiagram` run; and after a failed run (which hides the chart and
keeps export disabled) `printDiagram` still passes its precondition
check. -/
theorem diagramInitialized_monotone (s : AppState) (api : FetchResult)
    (svgResult : Option String) (w : Bool) (h : s.diagramInitialized = true) :
    (generateDiagram s api).1.diagramInitialized = true ∧
    ((generateDiagram s api).2 = GenOutcome.failure →
      (generateDiagram s api).1.chartVisible = false ∧
      (generateDiagram s api).1.exportEnabled = false ∧
      (printDiagram (generateDiagram s api).1 svgResult w).rejectedInit = false) := by
  by_cases hv : s.incident = "" ∨ s.level = none
  · refine ⟨by simp [generateDiagram, hv, h], fun hf => ?_⟩
    simp [generateDiagram, hv] at hf
  · cases api with
    | ok data =>
      refine ⟨by simp [generateDiagram, hv], fun hf => ?_⟩
      simp [generateDiagram, hv] at hf
    | error =>
      refine ⟨by simp [generateDiagram, hv, h], fun hf => ?_⟩
      refine ⟨by simp [generateDiagram, hv], by simp [generateDiagram, hv], ?_⟩
      cases svgResult <;> simp [generateDiagram, printDiagram, hv, h]

/-- Instantiation of `diagramInitialized_monotone`: a failed refresh after
an earlier success keeps the flag and lets export proceed. -/
theorem diagramInitialized_monotone_witness :
    (generateDiagram sampleState FetchResult.error).1.diagramInitialized = true ∧
    (generateDiagram sampleState FetchResult.error).1.chartVisible = false ∧
    (generateDiagram sampleState FetchResult.error).1.exportEnabled = false ∧
    (printDiagram (generateDiagram sampleState FetchResult.error).1
      (some "svg") true).rejectedInit = false := by
  have h := diagramInitialized_monotone sampleState FetchResult.error (some "svg") true rfl
  have h2 := h.2 (by decide)
  exact ⟨h.1, h2.1, h2.2.1, h2.2.2⟩

end HCE
